import Mathlib

/-
Verification of the karics HTTP routing and response-encoding core
(src/router.rs, src/response.rs) against its natural-language
specification.  Rust values are shallowly embedded: byte buffers are
`List UInt8`, Rust `&str`/`String` are Lean `String` (with UTF-8 byte
length computed explicitly), fixed arrays are lists whose length is an
invariant, panics are `Option.none`, and `Result` is `Except`.
-/

namespace Karics

/-- UTF-8 encoding of a single character, as the Rust `str::as_bytes`
representation prescribes (RFC 3629). -/
def encodeChar (c : Char) : List UInt8 :=
  let v := c.toNat
  if v < 0x80 then
    [UInt8.ofNat v]
  else if v < 0x800 then
    [UInt8.ofNat (0xC0 ||| (v >>> 6)), UInt8.ofNat (0x80 ||| (v &&& 0x3F))]
  else if v < 0x10000 then
    [UInt8.ofNat (0xE0 ||| (v >>> 12)), UInt8.ofNat (0x80 ||| ((v >>> 6) &&& 0x3F)),
      UInt8.ofNat (0x80 ||| (v &&& 0x3F))]
  else
    [UInt8.ofNat (0xF0 ||| (v >>> 18)), UInt8.ofNat (0x80 ||| ((v >>> 12) &&& 0x3F)),
      UInt8.ofNat (0x80 ||| ((v >>> 6) &&& 0x3F)), UInt8.ofNat (0x80 ||| (v &&& 0x3F))]

/-- The bytes of a string, as Rust `str::as_bytes` produces them; Rust
`str::len` is the length of this list (bytes, not characters). -/
def utf8Encode (s : String) : List UInt8 :=
  s.data.foldr (fun c acc => encodeChar c ++ acc) []

/-- Header capacity of a response.  `request.rs` (not part of the routing
core) exports `MAX_HEADERS`; the array literal `[""; 16]` in
`Response::new` (response.rs line 27) pins its value to 16. -/
def MAX_HEADERS : Nat := 16

/-- response.rs `Body`: exactly one body variant is active at a time. -/
inductive Body where
  | dummy : Body
  | vec (v : List UInt8) : Body
  | str (s : String) : Body
deriving DecidableEq

/-- response.rs `StatusMessage`. -/
structure StatusMessage where
  code : Nat
  msg : String
deriving DecidableEq

/-- response.rs `Response`: the in-progress logical response.  The Rust
fixed array `[&'static str; MAX_HEADERS]` is a list whose length is an
invariant of every reachable value. -/
structure Response where
  headers : List String
  headers_len : Nat
  status_message : StatusMessage
  body : Body
  rsp_buf : List UInt8
deriving DecidableEq

/-- response.rs `Response::new`. -/
def Response.new (buf : List UInt8) : Response :=
  { headers := List.replicate 16 ""
    headers_len := 0
    status_message := { code := 200, msg := "Ok" }
    body := Body.dummy
    rsp_buf := buf }

/-- response.rs `Response::status_code`. -/
def Response.status_code (r : Response) (code : Nat) (msg : String) : Response :=
  { r with status_message := { code := code, msg := msg } }

/-- response.rs `Response::header`: writes `self.headers[self.headers_len]`
and increments the count.  The Rust indexing panics when `headers_len`
is not below the array length; `none` models that panic. -/
def Response.header (r : Response) (h : String) : Option Response :=
  if r.headers_len < r.headers.length then
    some { r with
      headers := r.headers.set r.headers_len h
      headers_len := r.headers_len + 1 }
  else
    none

/-- response.rs `Response::body` (named `setBody` here because `body` is
the field name). -/
def Response.setBody (r : Response) (s : String) : Response :=
  { r with body := Body.str s }

/-- response.rs `Response::body_vec`. -/
def Response.body_vec (r : Response) (v : List UInt8) : Response :=
  { r with body := Body.vec v }

/-- response.rs `Response::body_mut`: flushes the active body variant into
the scratch buffer and resets the body to `Dummy`. -/
def Response.body_mut (r : Response) : Response :=
  match r.body with
  | Body.dummy => r
  | Body.str s => { r with rsp_buf := r.rsp_buf ++ utf8Encode s, body := Body.dummy }
  | Body.vec v => { r with rsp_buf := r.rsp_buf ++ v, body := Body.dummy }

/-- response.rs `Response::body_len`: the exact byte length of the active
body variant. -/
def Response.body_len (r : Response) : Nat :=
  match r.body with
  | Body.dummy => r.rsp_buf.length
  | Body.str s => (utf8Encode s).length
  | Body.vec v => v.length

/-- response.rs `Response::get_body`. -/
def Response.get_body (r : Response) : List UInt8 :=
  match r.body with
  | Body.dummy => r.rsp_buf
  | Body.str s => utf8Encode s
  | Body.vec v => v

/-- response.rs `encode` (lines 108-133).  The date-cache collaborator is
not part of the routing core; its output is the `date` parameter.
Modelled from the spec: `crate::date::append_date` appends the cached
`current_http_date()` string verbatim, here passed in as `date`. -/
def encode (date : List UInt8) (rsp : Response) (buf : List UInt8) : List UInt8 :=
  let buf :=
    if rsp.status_message.code = 200 then
      buf ++ utf8Encode "HTTP/1.1 200 Ok\r\nServer: M\r\nDate: "
    else
      ((((buf ++ utf8Encode "HTTP/1.1 ")
        ++ utf8Encode (toString rsp.status_message.code))
        ++ utf8Encode " ")
        ++ utf8Encode rsp.status_message.msg)
        ++ utf8Encode "\r\nServer: M\r\nDate: "
  let buf := buf ++ date
  let buf := (buf ++ utf8Encode "\r\nContent-Length: ")
    ++ utf8Encode (toString rsp.body_len)
  let buf := (rsp.headers.take rsp.headers_len).foldl
    (fun b h => (b ++ utf8Encode "\r\n") ++ utf8Encode h) buf
  let buf := buf ++ utf8Encode "\r\n\r\n"
  buf ++ rsp.get_body

/-- The status-line chunk `encode` writes (everything up to and excluding
the date bytes), split out for stating order properties. -/
def statusLineBytes (sm : StatusMessage) : List UInt8 :=
  if sm.code = 200 then
    utf8Encode "HTTP/1.1 200 Ok\r\nServer: M\r\nDate: "
  else
    utf8Encode "HTTP/1.1 " ++ utf8Encode (toString sm.code) ++ utf8Encode " "
      ++ utf8Encode sm.msg ++ utf8Encode "\r\nServer: M\r\nDate: "

/-- The header block `encode` writes: every registered header line
verbatim, each preceded by CRLF. -/
def hdrBlock : List String → List UInt8
  | [] => []
  | h :: t => utf8Encode "\r\n" ++ utf8Encode h ++ hdrBlock t

/-- response.rs `status_code_to_message` (lines 191-200): the private
reason-phrase table of the response module, used by `ResponseBuilder`. -/
def rsp_status_code_to_message (code : Nat) : String :=
  match code with
  | 200 => "Ok"
  | 400 => "Bad Request"
  | 401 => "Unauthorized"
  | 404 => "Not Found"
  | 500 => "Internal Server Error"
  | _ => "Unknown"

/-- The `hyper::Response<Vec<u8>>` values that route handlers return:
status, header map, body bytes. -/
structure HyperResponse where
  status : Nat
  headers : List (String × String)
  body : List UInt8

/-- router.rs `RouterError`.  The `Method` payload is a string (see
`methodFromBytes`). -/
inductive RouterError where
  | invalidPath : RouterError
  | methodNotAllowed (method : String) : RouterError
  | notFound (path : String) : RouterError
  | invalidPattern (pattern : String) : RouterError
deriving DecidableEq

/-- router.rs `MatchType` (`Prefix` is `prefixPat` here, the Lean keyword
being unavailable as a constructor name). -/
inductive MatchType where
  | exact : MatchType
  | regex : MatchType
  | prefixPat : MatchType
deriving DecidableEq

/-- A compiled regex, modelled by its observable behaviour through the
regex crate's `Regex::captures`: for a given haystack, `none` when the
pattern does not match, and otherwise the list of capture-group slots in
index order — slot 0 is the implicit whole-match group, and a
non-participating group is a `none` entry. -/
def Matcher : Type := String → Option (List (Option String))

/-- router.rs `Route`.  The compiled `Regex` is a `Matcher`. -/
structure Route where
  pattern : Matcher
  matchType : MatchType
  handler : List String → HyperResponse

/-- router.rs `Router`: `HashMap<Method, Vec<Route>>`, modelled as an
association list (only keyed lookup and entry-insertion are used, so the
hash-map iteration order never matters). -/
structure Router where
  routes : List (String × List Route)

/-- router.rs `Router::new` (the pre-allocated capacity has no logical
content). -/
def Router.new : Router := { routes := [] }

/-- `self.routes.entry(method).or_insert_with(Vec::new).push(route)`
(router.rs lines 96-99): append the route to the method's vector,
creating the vector if absent. -/
def insertRoute (l : List (String × List Route)) (m : String) (rt : Route) :
    List (String × List Route) :=
  match l with
  | [] => [(m, [rt])]
  | (m', rs) :: t =>
    if m' = m then (m', rs ++ [rt]) :: t else (m', rs) :: insertRoute t m rt

/-- `HashMap::get` on the routes map. -/
def lookupRoutes (l : List (String × List Route)) (m : String) :
    Option (List Route) :=
  match l with
  | [] => none
  | (m', rs) :: t => if m' = m then some rs else lookupRoutes t m

/-- router.rs `Router::route` lines 81-85: the regex pattern text built
from the registration text according to the match type; no escaping is
applied in any mode. -/
def regexPatternString (mt : MatchType) (pattern : String) : String :=
  match mt with
  | MatchType.exact => "^" ++ pattern ++ "$"
  | MatchType.prefixPat => "^" ++ pattern ++ ".*"
  | MatchType.regex => pattern

/-- router.rs `Router::route` lines 90-101: store the compiled route under
the method.  The compilation step `Regex::new(regexPatternString mt p)`
is the regex crate's; concrete compiled patterns are modelled
individually below (`reUsers`, `reADotB`). -/
def Router.routeWith (router : Router) (m : String) (rt : Route) : Router :=
  { routes := insertRoute router.routes m rt }

/-- router.rs `Router::match_route` loop body (lines 140-149): scan the
method's routes in order; on the first route whose pattern matches,
collect one string per capture slot (`captures.get(i).map_or("", as_str)`
for `i` in `0..captures.len()`). -/
def scanRoutes (rs : List Route) (p : String) :
    Option (Route × List String) :=
  match rs with
  | [] => none
  | r :: t =>
    match r.pattern p with
    | some caps => some (r, caps.map (fun o => o.getD ""))
    | none => scanRoutes t p

/-- router.rs `Router::match_route` (lines 134-152). -/
def Router.match_route (router : Router) (m p : String) :
    Except RouterError ((List String → HyperResponse) × List String) :=
  match lookupRoutes router.routes m with
  | none => Except.error (RouterError.methodNotAllowed m)
  | some rs =>
    match scanRoutes rs p with
    | some (r, params) => Except.ok (r.handler, params)
    | none => Except.error (RouterError.notFound p)

/-- The captured parameters `match_route` hands the winning handler, when
it succeeds. -/
def matchedParams (router : Router) (m p : String) : Option (List String) :=
  match Router.match_route router m p with
  | Except.ok (_, params) => some params
  | Except.error _ => none

/-- The canned error responses of router.rs `Router::handle` (lines
109-128): `Response::builder().status(..).body(..)` with a JSON error
body and no headers; `NotFound` gives 404, `MethodNotAllowed` 405, and
every other error — `InvalidPath` included — 500. -/
def routerErrorResponse (e : RouterError) : HyperResponse :=
  match e with
  | RouterError.notFound _ =>
    { status := 404, headers := [], body := utf8Encode "\x7b\"error\": \"Not Found\"\x7d" }
  | RouterError.methodNotAllowed _ =>
    { status := 405, headers := [], body := utf8Encode "\x7b\"error\": \"Method Not Allowed\"\x7d" }
  | _ =>
    { status := 500, headers := [], body := utf8Encode "\x7b\"error\": \"Internal Server Error\"\x7d" }

/-- router.rs `Router::handle` (lines 106-130): run the matched handler on
the captured parameters, or convert the routing error into its canned
response; every branch returns `Ok`. -/
def Router.handle (router : Router) (m p : String) :
    Except RouterError HyperResponse :=
  match Router.match_route router m p with
  | Except.ok (h, params) => Except.ok (h params)
  | Except.error e => Except.ok (routerErrorResponse e)

/-- router.rs `status_code_to_message` (lines 309-380): the full
reason-phrase table used by `ApiService::call`. -/
def status_code_to_message (code : Nat) : String :=
  match code with
  | 100 => "Continue"
  | 101 => "Switching Protocols"
  | 102 => "Processing"
  | 103 => "Early Hints"
  | 200 => "OK"
  | 201 => "Created"
  | 202 => "Accepted"
  | 203 => "Non-Authoritative Information"
  | 204 => "No Content"
  | 205 => "Reset Content"
  | 206 => "Partial Content"
  | 207 => "Multi-Status"
  | 208 => "Already Reported"
  | 226 => "IM Used"
  | 300 => "Multiple Choices"
  | 301 => "Moved Permanently"
  | 302 => "Found"
  | 303 => "See Other"
  | 304 => "Not Modified"
  | 305 => "Use Proxy"
  | 307 => "Temporary Redirect"
  | 308 => "Permanent Redirect"
  | 400 => "Bad Request"
  | 401 => "Unauthorized"
  | 402 => "Payment Required"
  | 403 => "Forbidden"
  | 404 => "Not Found"
  | 405 => "Method Not Allowed"
  | 406 => "Not Acceptable"
  | 407 => "Proxy Authentication Required"
  | 408 => "Request Timeout"
  | 409 => "Conflict"
  | 410 => "Gone"
  | 411 => "Length Required"
  | 412 => "Precondition Failed"
  | 413 => "Payload Too Large"
  | 414 => "URI Too Long"
  | 415 => "Unsupported Media Type"
  | 416 => "Range Not Satisfiable"
  | 417 => "Expectation Failed"
  | 418 => "I\x27m a teapot"
  | 421 => "Misdirected Request"
  | 422 => "Unprocessable Content"
  | 423 => "Locked"
  | 424 => "Failed Dependency"
  | 425 => "Too Early"
  | 426 => "Upgrade Required"
  | 428 => "Precondition Required"
  | 429 => "Too Many Requests"
  | 431 => "Request Header Fields Too Large"
  | 451 => "Unavailable For Legal Reasons"
  | 500 => "Internal Server Error"
  | 501 => "Not Implemented"
  | 502 => "Bad Gateway"
  | 503 => "Service Unavailable"
  | 504 => "Gateway Timeout"
  | 505 => "HTTP Version Not Supported"
  | 506 => "Variant Also Negotiates"
  | 507 => "Insufficient Storage"
  | 508 => "Loop Detected"
  | 510 => "Not Extended"
  | 511 => "Network Authentication Required"
  | _ => "Unknown Status Code"

/-- HTTP token characters, per the byte table the hyper crate uses for
`Method::from_bytes` (RFC 7230 tchar). -/
def isTokenChar (c : Char) : Bool :=
  c.isAlphanum || ("!#$%&\x27*+-.^_\x60|~".data.contains c)

/-- Model of the external `hyper::Method::from_bytes`: succeeds exactly on
non-empty token strings (standard and extension methods alike, kept
verbatim), fails otherwise. -/
def methodFromBytes (s : String) : Option String :=
  if s ≠ "" && s.data.all isTokenChar then some s else none

/-- The transport-level error of `ApiService::call`:
`io::Error::new(ErrorKind::InvalidInput, ..)`. -/
inductive IoError where
  | invalidInput (msg : String) : IoError
deriving DecidableEq

/-- The parsed request the transport hands the service: `req.method()`
and `req.path()` strings. -/
structure Request where
  method : String
  path : String

/-- router.rs `ApiService` (the type-erased context plays no role in
`call` and is omitted). -/
structure ApiService where
  router : Router

/-- Model of `hyper::HeaderMap::get(CONTENT_TYPE)`: the first entry whose
(lowercase-normalized) name is `content-type`. -/
def lookupContentType (hs : List (String × String)) : Option String :=
  (hs.find? (fun kv => kv.fst == "content-type")).map (fun kv => kv.snd)

/-- The `match ct_str` arms of `ApiService::call` (router.rs lines
268-274): the header line pushed for each recognized content type, with
`application/octet-stream` as the fallback. -/
def contentTypeLine (ct : String) : String :=
  match ct with
  | "application/json" => "Content-Type: application/json"
  | "text/plain" => "Content-Type: text/plain"
  | "text/html" => "Content-Type: text/html"
  | _ => "Content-Type: application/octet-stream"

/-- The `Ok(response)` branch of `ApiService::call` (router.rs lines
255-281): status line, three fixed headers, optional content-type
echo, then the body; `none` models a header-capacity panic. -/
def callOk (response : HyperResponse) (rsp : Response) : Option Response :=
  let rsp := rsp.status_code response.status (status_code_to_message response.status)
  (rsp.header "Server: Karics").bind fun rsp =>
  (rsp.header "X-Content-Type-Options: nosniff").bind fun rsp =>
  (rsp.header "X-Frame-Options: DENY").bind fun rsp =>
  (match lookupContentType response.headers with
   | none => some rsp
   | some ct => rsp.header (contentTypeLine ct)).bind fun rsp =>
  some (rsp.body_vec response.body)

/-- The `Err(e)` branch of `ApiService::call` (router.rs lines 283-302).
`Router::handle` never returns `Err`, so this branch is unreachable from
`call`, but it is modelled faithfully. -/
def callErr (e : RouterError) (rsp : Response) : Option Response :=
  let sm : Nat × String :=
    match e with
    | RouterError.notFound _ => (404, "Not Found")
    | RouterError.methodNotAllowed _ => (405, "Method Not Allowed")
    | _ => (500, "Internal Server Error")
  let rsp := rsp.status_code sm.1 sm.2
  (rsp.header "Content-Type: application/json").map fun rsp =>
    match sm.1 with
    | 404 => rsp.setBody "\x7b\"error\": \"Not Found\"\x7d"
    | 405 => rsp.setBody "\x7b\"error\": \"Method Not Allowed\"\x7d"
    | _ => rsp.setBody "\x7b\"error\": \"Internal Server Error\"\x7d"

/-- router.rs `ApiService::call` (lines 248-305), `impl HttpService`.  A
malformed method string short-circuits with `Err` through the `?`
operator; otherwise the routing outcome is written into `rsp` and the
call returns `Ok`.  The outer `Option` models panics (`none` = panic),
the inner `Except` is the `io::Result<()>` with the final response state
standing in for the unit. -/
def ApiService.call (svc : ApiService) (req : Request) (rsp : Response) :
    Option (Except IoError Response) :=
  match methodFromBytes req.method with
  | none => some (Except.error (IoError.invalidInput "Invalid method"))
  | some m =>
    match Router.handle svc.router m req.path with
    | Except.ok response => (callOk response rsp).map Except.ok
    | Except.error e => (callErr e rsp).map Except.ok

/-- Discriminator for the result of `ApiService.call`: did the call
complete without panicking and return `Ok`? -/
def isOkResult (r : Option (Except IoError Response)) : Bool :=
  match r with
  | some (Except.ok _) => true
  | _ => false

/-- The longest digit prefix of a character list and the remainder —
the greedy `\d+` step (digits are ASCII here; every input considered is
ASCII). -/
def digitSpan (l : List Char) : List Char × List Char :=
  match l with
  | [] => ([], [])
  | c :: cs =>
    if c.isDigit then
      let r := digitSpan cs
      (c :: r.1, r.2)
    else
      ([], c :: cs)

/-- One anchored attempt of the pattern `/users/(\d+)` at the head of the
haystack: the literal `/users/` followed by at least one digit, the
digit run taken greedily; returns (whole match, group 1). -/
def usersMatchAt (l : List Char) : Option (String × String) :=
  match l with
  | '/' :: 'u' :: 's' :: 'e' :: 'r' :: 's' :: '/' :: rest =>
    let r := digitSpan rest
    if r.1.isEmpty then none
    else some (String.mk ('/' :: 'u' :: 's' :: 'e' :: 'r' :: 's' :: '/' :: r.1), String.mk r.1)
  | _ => none

/-- Leftmost-first search for `/users/(\d+)`: try each start position in
order, as the regex crate's unanchored `captures` does. -/
def usersSearch (l : List Char) : Option (String × String) :=
  match usersMatchAt l with
  | some r => some r
  | none =>
    match l with
    | [] => none
    | _ :: rest => usersSearch rest

/-- Model of the external regex crate's compiled matcher for the
registration text `/users/(\d+)` under `MatchType::Regex` (the text is
used directly, unanchored): capture slot 0 is the whole match, slot 1
the digit group. -/
def reUsers : Matcher := fun p =>
  (usersSearch p.data).map (fun r => [some r.1, some r.2])

/-- Model of the external regex crate's compiled matcher for
`Regex::new("^a.b$")` — the compilation of an `Exact` registration of
the text `a.b` (`regexPatternString MatchType.exact "a.b"`).  `.`
matches any character except a newline, so the regex accepts every
three-character string `a?b` with `?` not a newline; the only capture
slot is the whole match. -/
def reADotB : Matcher := fun p =>
  match p.data with
  | [a, c, b] =>
    if a = 'a' ∧ c ≠ '\n' ∧ b = 'b' then some [some p] else none
  | _ => none

/-- A handler whose response content is irrelevant to the routing claims. -/
def dummyHandler : List String → HyperResponse := fun _ =>
  { status := 200, headers := [], body := [] }

/-- The router of the spec scenario: `GET /users/(\d+)` registered with
`MatchType::Regex` (as `Router::get` does). -/
def usersRouter : Router :=
  Router.routeWith Router.new "GET"
    { pattern := reUsers, matchType := MatchType.regex, handler := dummyHandler }

/-- A router with a single `Exact` registration of the text `a.b` under
`GET`. -/
def exactRouter : Router :=
  Router.routeWith Router.new "GET"
    { pattern := reADotB, matchType := MatchType.exact, handler := dummyHandler }

/-- Responses reachable through the public construction surface of
response.rs: `new` followed by any sequence of `status_code`, `header`
(when it does not panic), `body`, `body_vec`, `body_mut`. -/
inductive Reachable : Response → Prop where
  | new (buf : List UInt8) : Reachable (Response.new buf)
  | status_code (r : Response) (c : Nat) (m : String) :
      Reachable r → Reachable (r.status_code c m)
  | header (r : Response) (h : String) (r' : Response) :
      Reachable r → r.header h = some r' → Reachable r'
  | setBody (r : Response) (s : String) :
      Reachable r → Reachable (r.setBody s)
  | body_vec (r : Response) (v : List UInt8) :
      Reachable r → Reachable (r.body_vec v)
  | body_mut (r : Response) :
      Reachable r → Reachable r.body_mut

/-- The router contract in the spec's words (section 4.1): scan the
method's route list in registration order and return the first pattern
that match the path, with its captured groups, or `NotFound`. -/
def matchRouteSpec (rs : List Route) (p : String) :
    Except RouterError ((List String → HyperResponse) × List String) :=
  match rs.find? (fun r => (r.pattern p).isSome) with
  | some r => Except.ok (r.handler, ((r.pattern p).getD []).map (fun o => o.getD ""))
  | none => Except.error (RouterError.notFound p)

/-- The routing error produced by `match_route`, if any. -/
def routerErrorOf (res : Except RouterError ((List String → HyperResponse) × List String)) :
    Option RouterError :=
  match res with
  | Except.ok _ => none
  | Except.error e => some e

theorem foldl_hdrBlock (l : List String) (b : List UInt8) :
    l.foldl (fun b h => (b ++ utf8Encode "\r\n") ++ utf8Encode h) b = b ++ hdrBlock l := by
  induction l generalizing b with
  | nil => simp [hdrBlock]
  | cons h t ih =>
    rw [List.foldl_cons, ih, hdrBlock]
    simp [List.append_assoc]

theorem encode_eq (date : List UInt8) (rsp : Response) (buf : List UInt8) :
    encode date rsp buf =
      buf ++ statusLineBytes rsp.status_message ++ date
        ++ utf8Encode "\r\nContent-Length: " ++ utf8Encode (toString rsp.body_len)
        ++ hdrBlock (rsp.headers.take rsp.headers_len)
        ++ utf8Encode "\r\n\r\n" ++ rsp.get_body := by
  simp only [encode, statusLineBytes]
  rw [foldl_hdrBlock]
  by_cases hc : rsp.status_message.code = 200 <;>
    simp [hc, List.append_assoc]

theorem scan_eq_spec (rs : List Route) (p : String) :
    (match scanRoutes rs p with
      | some rp => Except.ok (rp.1.handler, rp.2)
      | none => Except.error (RouterError.notFound p)) = matchRouteSpec rs p := by
  induction rs with
  | nil => rfl
  | cons r t ih =>
    cases hp : r.pattern p with
    | some caps =>
      rw [matchRouteSpec, List.find?_cons_of_pos _ (by simp [hp])]
      simp [scanRoutes, hp]
    | none =>
      rw [matchRouteSpec, List.find?_cons_of_neg _ (by simp [hp])]
      rw [scanRoutes, hp]
      rw [ih, matchRouteSpec]

theorem handle_total (r : Router) (m p : String) :
    ∃ resp, Router.handle r m p = Except.ok resp := by
  unfold Router.handle
  cases h : Router.match_route r m p with
  | ok v => exact ⟨v.1 v.2, rfl⟩
  | error e => exact ⟨routerErrorResponse e, rfl⟩

theorem match_route_no_invalidPath (r : Router) (m p : String) :
    Router.match_route r m p ≠ Except.error RouterError.invalidPath := by
  unfold Router.match_route
  cases lookupRoutes r.routes m with
  | none => simp
  | some rs =>
    cases hs : scanRoutes rs p with
    | none => simp [hs]
    | some rp =>
      obtain ⟨r1, ps⟩ := rp
      simp [hs]

theorem lookup_insertRoute (l : List (String × List Route)) (m : String) (rt : Route) :
    lookupRoutes (insertRoute l m rt) m = some ((lookupRoutes l m).getD [] ++ [rt]) := by
  induction l with
  | nil => simp [insertRoute, lookupRoutes]
  | cons hd t ih =>
    obtain ⟨m', rs⟩ := hd
    by_cases hm : m' = m
    · simp [insertRoute, lookupRoutes, hm]
    · simp [insertRoute, lookupRoutes, hm, ih]

theorem reachable_inv {r : Response} (h : Reachable r) :
    r.headers.length = MAX_HEADERS ∧ r.headers_len ≤ MAX_HEADERS := by
  induction h with
  | new buf => simp [Response.new, MAX_HEADERS]
  | status_code r c m _ ih => simpa [Response.status_code] using ih
  | header r h r' _ hset ih =>
    unfold Response.header at hset
    split at hset
    · cases hset
      refine ⟨by simp [List.length_set, ih.1], ?_⟩
      show r.headers_len + 1 ≤ MAX_HEADERS
      have h1 := ih.1
      have hlt : r.headers_len < r.headers.length := by assumption
      omega
    · cases hset
  | setBody r s _ ih => simpa [Response.setBody] using ih
  | body_vec r v _ ih => simpa [Response.body_vec] using ih
  | body_mut r _ ih =>
    cases hb : r.body <;> simp [Response.body_mut, hb] <;> exact ih

theorem callOk_fresh (resp : HyperResponse) (buf : List UInt8) :
    (callOk resp (Response.new buf)).isSome := by
  unfold callOk
  cases hct : lookupContentType resp.headers <;>
    simp [hct, Response.header, Response.new, Response.status_code,
      List.length_set, List.length_replicate]

theorem scan_params_shape (rs : List Route) (p : String) (r : Route) (ps : List String)
    (h : scanRoutes rs p = some (r, ps)) :
    ∃ caps, r.pattern p = some caps ∧ ps = caps.map (fun o => o.getD "") := by
  induction rs with
  | nil => cases h
  | cons hd t ih =>
    rw [scanRoutes] at h
    cases hp : hd.pattern p with
    | some caps =>
      rw [hp] at h
      cases h
      exact ⟨caps, hp, rfl⟩
    | none =>
      rw [hp] at h
      exact ih h

/-- Claim C1 (corrected as stated): on the router with `GET /users/(\d+)`
registered, matching `/users/42` hands the handler the parameter list
`["/users/42", "42"]` — the implicit whole-match group 0 is included —
and not the claimed `["42"]`. -/
theorem c1_counterexample :
    matchedParams usersRouter "GET" "/users/42" = some ["/users/42", "42"]
    ∧ matchedParams usersRouter "GET" "/users/42" ≠ some ["42"] :=
  ⟨by decide, by decide⟩

/-- Claim C1, amended: a successful `match_route` hands the handler one
string per capture slot of the regex captures in slot order — slot 0,
the implicit whole-match group, first, then each capturing group left to
right, a non-participating slot yielding the empty string; so for
`GET /users/(\d+)` a match on `/users/42` yields `["/users/42", "42"]`,
while `/users/abc` yields `NotFound`. -/
theorem c1_amended :
    matchedParams usersRouter "GET" "/users/42" = some ["/users/42", "42"]
    ∧ Router.match_route usersRouter "GET" "/users/abc"
        = Except.error (RouterError.notFound "/users/abc")
    ∧ (∀ (rs : List Route) (p : String) (r : Route) (ps : List String),
        scanRoutes rs p = some (r, ps) →
        ∃ caps, r.pattern p = some caps ∧ ps = caps.map (fun o => o.getD "")) :=
  ⟨by decide, by rfl, scan_params_shape⟩

/-- Witness for C1's amended theorem at the concrete route and path. -/
theorem c1_witness :
    ∃ caps, reUsers "/users/42" = some caps
      ∧ ["/users/42", "42"] = caps.map (fun o => o.getD "") :=
  c1_amended.2.2
    [{ pattern := reUsers, matchType := MatchType.regex, handler := dummyHandler }]
    "/users/42"
    { pattern := reUsers, matchType := MatchType.regex, handler := dummyHandler }
    ["/users/42", "42"] (by rfl)

/-- Claim C2 (corrected as stated): with no routes registered, matching
the empty path performs the method lookup and fails with
`MethodNotAllowed` — not `InvalidPath` — and the dispatch wrapper
produces the 405 response, not a 400 one. -/
theorem c2_counterexample :
    routerErrorOf (Router.match_route Router.new "GET" "")
      = some (RouterError.methodNotAllowed "GET")
    ∧ routerErrorOf (Router.match_route Router.new "GET" "")
        ≠ some RouterError.invalidPath
    ∧ Router.handle Router.new "GET" ""
        = Except.ok (routerErrorResponse (RouterError.methodNotAllowed "GET"))
    ∧ (routerErrorResponse (RouterError.methodNotAllowed "GET")).status = 405 :=
  ⟨by decide, by decide, by rfl, by rfl⟩

/-- Claim C2, amended: `match_route` has no empty-path check and never
returns `InvalidPath`; an empty path goes through the ordinary method
lookup, so with no routes for the method it fails with
`MethodNotAllowed` and dispatch produces the 405 response. -/
theorem c2_amended (router : Router) (m p : String) :
    Router.match_route router m p ≠ Except.error RouterError.invalidPath
    ∧ (lookupRoutes router.routes m = none →
        Router.match_route router m "" = Except.error (RouterError.methodNotAllowed m)
        ∧ Router.handle router m ""
            = Except.ok (routerErrorResponse (RouterError.methodNotAllowed m))
        ∧ (routerErrorResponse (RouterError.methodNotAllowed m)).status = 405) := by
  refine ⟨match_route_no_invalidPath router m p, fun hnone => ⟨?_, ?_, rfl⟩⟩
  · unfold Router.match_route
    rw [hnone]
  · unfold Router.handle Router.match_route
    rw [hnone]

/-- Witness for C2's amended theorem on the empty router. -/
theorem c2_witness :
    Router.match_route Router.new "POST" ""
        = Except.error (RouterError.methodNotAllowed "POST")
    ∧ Router.handle Router.new "POST" ""
        = Except.ok (routerErrorResponse (RouterError.methodNotAllowed "POST"))
    ∧ (routerErrorResponse (RouterError.methodNotAllowed "POST")).status = 405 :=
  (c2_amended Router.new "POST" "").2 (by rfl)

/-- Claim C3 (confirmed): `match_route` fails with `MethodNotAllowed`
exactly when the method has no route list (never `NotFound` then);
with a route list it realises the spec contract `matchRouteSpec` —
first match in registration order — and returns `NotFound` exactly when
the list exists but no pattern matches; registration appends at the end
of the method's list, so list order is registration order. -/
theorem c3_confirmed (router : Router) (m p : String) :
    (Router.match_route router m p = Except.error (RouterError.methodNotAllowed m)
      ↔ lookupRoutes router.routes m = none)
    ∧ (∀ rs, lookupRoutes router.routes m = some rs →
        Router.match_route router m p = matchRouteSpec rs p)
    ∧ (∀ rs, lookupRoutes router.routes m = some rs →
        (Router.match_route router m p = Except.error (RouterError.notFound p)
          ↔ scanRoutes rs p = none))
    ∧ (∀ rt, lookupRoutes (Router.routeWith router m rt).routes m
        = some ((lookupRoutes router.routes m).getD [] ++ [rt])) := by
  refine ⟨⟨?_, ?_⟩, ?_, ?_, ?_⟩
  · intro h
    by_contra hne
    obtain ⟨rs, hrs⟩ := Option.ne_none_iff_exists'.mp hne
    simp only [Router.match_route, hrs] at h
    cases hs : scanRoutes rs p with
    | none => simp [hs] at h
    | some rp => obtain ⟨r1, ps⟩ := rp; simp [hs] at h
  · intro h
    rw [Router.match_route, h]
  · intro rs hrs
    simp only [Router.match_route, hrs]
    rw [← scan_eq_spec rs p]
    cases hs : scanRoutes rs p with
    | none => simp [hs]
    | some rp => obtain ⟨r1, ps⟩ := rp; simp [hs]
  · intro rs hrs
    simp only [Router.match_route, hrs]
    cases hs : scanRoutes rs p with
    | none => simp [hs]
    | some rp => obtain ⟨r1, ps⟩ := rp; simp [hs]
  · intro rt
    exact lookup_insertRoute router.routes m rt

/-- Witness for C3 on the concrete scenario router: first-match dispatch
agrees with the spec contract. -/
theorem c3_witness :
    Router.match_route usersRouter "GET" "/users/42"
      = matchRouteSpec
          [{ pattern := reUsers, matchType := MatchType.regex, handler := dummyHandler }]
          "/users/42" :=
  (c3_confirmed usersRouter "GET" "/users/42").2.1
    [{ pattern := reUsers, matchType := MatchType.regex, handler := dummyHandler }] (by rfl)

/-- Claim C4 (confirmed): `encode` appends, in order, the status line and
fixed `Server: M` header, the date bytes, a `Content-Length` header
holding the exact byte length of the active body variant (bytes, not
characters: a body of `"é"` has length 2), every registered header line
verbatim preceded by CRLF, a blank line, and the body bytes; encoding a
status-200 response with no headers and body `"OK"` yields a buffer
whose `Content-Length` value is `2` and whose trailing bytes are `OK`. -/
theorem c4_confirmed (date : List UInt8) (rsp : Response) (buf : List UInt8) :
    encode date rsp buf
      = buf ++ statusLineBytes rsp.status_message ++ date
        ++ utf8Encode "\r\nContent-Length: " ++ utf8Encode (toString rsp.body_len)
        ++ hdrBlock (rsp.headers.take rsp.headers_len)
        ++ utf8Encode "\r\n\r\n" ++ rsp.get_body
    ∧ ((Response.new buf).setBody "OK").body_len = 2
    ∧ ((Response.new buf).setBody "é").body_len = 2
    ∧ encode date ((Response.new []).setBody "OK") []
        = utf8Encode "HTTP/1.1 200 Ok\r\nServer: M\r\nDate: "
          ++ date ++ utf8Encode "\r\nContent-Length: 2\r\n\r\nOK" := by
  refine ⟨encode_eq date rsp buf, rfl, rfl, ?_⟩
  rw [encode_eq]
  have hA : statusLineBytes ((Response.new ([] : List UInt8)).setBody "OK").status_message
      = utf8Encode "HTTP/1.1 200 Ok\r\nServer: M\r\nDate: " := by decide
  rw [hA]
  simp only [List.nil_append, List.append_assoc]
  congr 1

/-- Claim C5 (corrected as stated): `Exact` mode anchors the pattern text
without escaping it (`^a.b$`), so the route registered as Exact `a.b`
also matches the path `axb`, which is not character-for-character equal
to the pattern text. -/
theorem c5_counterexample :
    regexPatternString MatchType.exact "a.b" = "^a.b$"
    ∧ matchedParams exactRouter "GET" "axb" = some ["axb"]
    ∧ ("axb" : String) ≠ "a.b" :=
  ⟨by decide, by decide, by decide⟩

/-- Claim C5, amended: `Exact` compiles `"^" ++ text ++ "$"` and `Prefix`
compiles `"^" ++ text ++ ".*"`, both without escaping, so regex
metacharacters in the text keep their meaning: the Exact registration of
`a.b` matches exactly the regex language of `^a.b$` — `a.b` and `axb`
match, `ab` and `aXYb` do not. -/
theorem c5_amended :
    regexPatternString MatchType.exact "a.b" = "^a.b$"
    ∧ regexPatternString MatchType.prefixPat "a.b" = "^a.b.*"
    ∧ regexPatternString MatchType.regex "a.b" = "a.b"
    ∧ matchedParams exactRouter "GET" "a.b" = some ["a.b"]
    ∧ matchedParams exactRouter "GET" "axb" = some ["axb"]
    ∧ matchedParams exactRouter "GET" "ab" = none
    ∧ matchedParams exactRouter "GET" "aXYb" = none := by
  decide

/-- Claim C6 (corrected as stated): `ApiService::call` on a request whose
method string is malformed (here the empty string) returns `Err` —
`ErrorKind::InvalidInput` through the `?` operator — rather than an
encoded error response with `Ok(())`. -/
theorem c6_counterexample :
    ApiService.call { router := Router.new } { method := "", path := "/x" } (Response.new [])
      = some (Except.error (IoError.invalidInput "Invalid method"))
    ∧ isOkResult (ApiService.call { router := Router.new } { method := "", path := "/x" }
        (Response.new [])) = false :=
  ⟨rfl, rfl⟩

/-- Claim C6, amended: `call` on a fresh per-request response never
panics; a request whose path matches no route is mapped to an encoded
error response with `Ok(())` returned, but a malformed method string is
the one user-input condition answered with `Err` (`InvalidInput`). -/
theorem c6_amended (router : Router) (ms p : String) (buf : List UInt8) :
    (methodFromBytes ms = none →
      ApiService.call { router := router } { method := ms, path := p } (Response.new buf)
        = some (Except.error (IoError.invalidInput "Invalid method")))
    ∧ (∀ m, methodFromBytes ms = some m →
        isOkResult (ApiService.call { router := router } { method := ms, path := p }
          (Response.new buf)) = true) := by
  constructor
  · intro hm
    simp [ApiService.call, hm]
  · intro m hm
    obtain ⟨resp, hresp⟩ := handle_total router m p
    obtain ⟨r', hr'⟩ := Option.isSome_iff_exists.mp (callOk_fresh resp buf)
    simp [ApiService.call, hm, hresp, hr', isOkResult]

/-- Witness for C6's amended theorem: a malformed method (a space) gives
`Err`, while a well-formed method with no routes at all still gives an
`Ok` result. -/
theorem c6_witness :
    ApiService.call { router := Router.new } { method := " ", path := "/" } (Response.new [])
      = some (Except.error (IoError.invalidInput "Invalid method"))
    ∧ isOkResult (ApiService.call { router := Router.new } { method := "GET", path := "/" }
        (Response.new [])) = true :=
  ⟨(c6_amended Router.new " " "/" []).1 (by decide),
   (c6_amended Router.new "GET" "/" []).2 "GET" (by decide)⟩

/-- Claim C7 (corrected as stated): the canned response `Router::handle`
builds for `InvalidPath` has status 500, not the claimed 400 —
`InvalidPath` falls into the catch-all arm. -/
theorem c7_counterexample :
    (routerErrorResponse RouterError.invalidPath).status = 500
    ∧ (routerErrorResponse RouterError.invalidPath).status ≠ 400 :=
  ⟨rfl, by decide⟩

/-- Claim C7, amended: `Router::handle` is total over routing outcomes —
it always returns `Ok` — mapping `NotFound` to a 404 response,
`MethodNotAllowed` to 405, and every other error (`InvalidPath` and
`InvalidPattern` alike) to 500, each with a small JSON error body. -/
theorem c7_amended (router : Router) (m p : String) :
    (∃ resp, Router.handle router m p = Except.ok resp)
    ∧ routerErrorResponse (RouterError.notFound p)
        = { status := 404, headers := [],
            body := utf8Encode "\x7b\"error\": \"Not Found\"\x7d" }
    ∧ routerErrorResponse (RouterError.methodNotAllowed m)
        = { status := 405, headers := [],
            body := utf8Encode "\x7b\"error\": \"Method Not Allowed\"\x7d" }
    ∧ routerErrorResponse RouterError.invalidPath
        = { status := 500, headers := [],
            body := utf8Encode "\x7b\"error\": \"Internal Server Error\"\x7d" }
    ∧ routerErrorResponse (RouterError.invalidPattern p)
        = { status := 500, headers := [],
            body := utf8Encode "\x7b\"error\": \"Internal Server Error\"\x7d" } :=
  ⟨handle_total router m p, rfl, rfl, rfl, rfl⟩

/-- Claim C8 (confirmed): every reachable response keeps its header count
at or below `MAX_HEADERS`; once the count reaches the capacity, adding a
header is the out-of-bounds panic (`none`) rather than a silent drop or
wrap; and under the invariant the `headers[..headers_len]` slice taken
by `encode` is in bounds. -/
theorem c8_confirmed (r : Response) (h : String) (hr : Reachable r) :
    r.headers_len ≤ MAX_HEADERS
    ∧ (r.headers_len = MAX_HEADERS → r.header h = none)
    ∧ (r.headers.take r.headers_len).length = r.headers_len := by
  have inv := reachable_inv hr
  refine ⟨inv.2, fun he => ?_, ?_⟩
  · simp [Response.header, inv.1, he, MAX_HEADERS]
  · rw [List.length_take, inv.1]
    have := inv.2
    omega

/-- Witness for C8 at the freshly created response. -/
theorem c8_witness :
    (Response.new ([] : List UInt8)).headers_len ≤ MAX_HEADERS
    ∧ ((Response.new ([] : List UInt8)).headers_len = MAX_HEADERS →
        (Response.new ([] : List UInt8)).header "X-Test: 1" = none)
    ∧ ((Response.new ([] : List UInt8)).headers.take
        (Response.new ([] : List UInt8)).headers_len).length
        = (Response.new ([] : List UInt8)).headers_len :=
  c8_confirmed (Response.new []) "X-Test: 1" (Reachable.new [])

/-- Claim C9 (corrected as stated): the repository has two reason-phrase
tables; the response-module one (used by `ResponseBuilder`) maps the
unknown code 799 to `"Unknown"`, not to the claimed
`"Unknown Status Code"`. -/
theorem c9_counterexample :
    rsp_status_code_to_message 799 = "Unknown"
    ∧ rsp_status_code_to_message 799 ≠ "Unknown Status Code" :=
  ⟨rfl, by decide⟩

/-- Claim C9, amended: the router-module table used by `ApiService::call`
maps the unknown code 799 to `"Unknown Status Code"`, and encoding a
response stamped through it still produces the syntactically valid
status line `HTTP/1.1 799 Unknown Status Code`; the response-module
table used by `ResponseBuilder`, however, maps unknown codes to
`"Unknown"`. -/
theorem c9_amended (date : List UInt8) :
    status_code_to_message 799 = "Unknown Status Code"
    ∧ rsp_status_code_to_message 799 = "Unknown"
    ∧ encode date ((Response.new []).status_code 799 (status_code_to_message 799)) []
        = utf8Encode "HTTP/1.1 799 Unknown Status Code\r\nServer: M\r\nDate: "
          ++ date ++ utf8Encode "\r\nContent-Length: 0\r\n\r\n" := by
  refine ⟨rfl, rfl, ?_⟩
  rw [encode_eq]
  have hA : statusLineBytes
        ((Response.new ([] : List UInt8)).status_code 799 (status_code_to_message 799)).status_message
      = utf8Encode "HTTP/1.1 799 Unknown Status Code\r\nServer: M\r\nDate: " := by decide
  rw [hA]
  simp only [List.nil_append, List.append_assoc]
  congr 1

/-- Claim C10 (confirmed): when the status code is 200 the fixed status
line `HTTP/1.1 200 Ok` is emitted and the stored reason phrase is
ignored (encodings under different stored phrases coincide); for any
other code the stored phrase is written verbatim. -/
theorem c10_confirmed (date buf : List UInt8) (rsp : Response) (m₁ m₂ msg : String) (c : Nat) :
    encode date (rsp.status_code 200 m₁) buf = encode date (rsp.status_code 200 m₂) buf
    ∧ encode date (rsp.status_code 200 m₁) buf
        = buf ++ utf8Encode "HTTP/1.1 200 Ok\r\nServer: M\r\nDate: " ++ date
          ++ utf8Encode "\r\nContent-Length: " ++ utf8Encode (toString rsp.body_len)
          ++ hdrBlock (rsp.headers.take rsp.headers_len)
          ++ utf8Encode "\r\n\r\n" ++ rsp.get_body
    ∧ (c ≠ 200 → encode date (rsp.status_code c msg) buf
        = buf ++ (utf8Encode "HTTP/1.1 " ++ utf8Encode (toString c) ++ utf8Encode " "
            ++ utf8Encode msg ++ utf8Encode "\r\nServer: M\r\nDate: ") ++ date
          ++ utf8Encode "\r\nContent-Length: " ++ utf8Encode (toString rsp.body_len)
          ++ hdrBlock (rsp.headers.take rsp.headers_len)
          ++ utf8Encode "\r\n\r\n" ++ rsp.get_body) := by
  refine ⟨?_, ?_, fun hc => ?_⟩
  · rw [encode_eq, encode_eq]
    rfl
  · rw [encode_eq]
    have h1 : statusLineBytes (rsp.status_code 200 m₁).status_message
        = utf8Encode "HTTP/1.1 200 Ok\r\nServer: M\r\nDate: " := by
      simp [statusLineBytes, Response.status_code]
    rw [h1]
    rfl
  · rw [encode_eq]
    have h2 : statusLineBytes (rsp.status_code c msg).status_message
        = utf8Encode "HTTP/1.1 " ++ utf8Encode (toString c) ++ utf8Encode " "
          ++ utf8Encode msg ++ utf8Encode "\r\nServer: M\r\nDate: " := by
      simp [statusLineBytes, Response.status_code, hc]
    rw [h2]
    rfl

/-- Witness for C10 at a concrete non-200 status. -/
theorem c10_witness :
    encode [] ((Response.new []).status_code 404 "Not Found") []
      = [] ++ (utf8Encode "HTTP/1.1 " ++ utf8Encode (toString (404 : Nat)) ++ utf8Encode " "
          ++ utf8Encode "Not Found" ++ utf8Encode "\r\nServer: M\r\nDate: ") ++ []
        ++ utf8Encode "\r\nContent-Length: "
        ++ utf8Encode (toString (Response.new ([] : List UInt8)).body_len)
        ++ hdrBlock ((Response.new ([] : List UInt8)).headers.take
            (Response.new ([] : List UInt8)).headers_len)
        ++ utf8Encode "\r\n\r\n" ++ (Response.new ([] : List UInt8)).get_body :=
  (c10_confirmed [] [] (Response.new []) "A" "B" "Not Found" 404).2.2 (by decide)

end Karics
